import Mathlib

/-!
Shallow embedding of `src/mapillary_api.py` (repository `my_mappilary_api`).

Conventions of the embedding:
* Python floats are modelled as exact rationals `ℚ` where the code only
  compares and copies them; the trigonometric radius conversion is modelled
  over `ℝ` with `Real.cos`.
* Python `None`/`NaN`/truthiness are modelled explicitly (`CellValue`,
  `PyFloat`): note that in Python `bool(float("nan")) = True`.
* Fallible code returns `Except String`; a Python `raise` that is caught by
  an enclosing `try` is an `Except.error` consumed by the caller.
* External collaborators are modelled at their interface: the network is a
  `NetResult` value handed to the client, the mercantile tile grid is a
  function parameter of the orchestrator, and shapely polygons are a record
  of their boolean predicates (`MPolygon`), with the exact axis-aligned-box
  instance (`boxPoly`) implementing shapely's documented semantics
  (`contains` excludes the boundary, `intersects` includes it, `disjoint`
  means no shared point at all).
-/

namespace MapillaryApi

/-- Decidable equality of `Except` values, so that concrete runs of the
embedded functions can be settled by `decide`. -/
instance {ε α : Type} [DecidableEq ε] [DecidableEq α] : DecidableEq (Except ε α)
  | .ok a, .ok b => decidable_of_iff (a = b) (by simp)
  | .error a, .error b => decidable_of_iff (a = b) (by simp)
  | .ok _, .error _ => .isFalse (fun h => Except.noConfusion h)
  | .error _, .ok _ => .isFalse (fun h => Except.noConfusion h)

/-- A 2-D point `(x, y)`; the code stores points as `(lon, lat)`. -/
abbrev Pt : Type := ℚ × ℚ

/-- An axis-aligned rectangle, as produced by `shapely.box(minx, miny, maxx, maxy)`. -/
structure Box where
  minx : ℚ
  miny : ℚ
  maxx : ℚ
  maxy : ℚ
  deriving DecidableEq, Repr

/-- Interface of a shapely geometry as used by the code: the point predicates
`contains` (interior only) and `intersects` (interior or boundary), the
`disjoint` test against a box, and the `bounds` tuple
`(minLon, minLat, maxLon, maxLat)`. -/
structure MPolygon where
  containsB : Pt → Bool
  intersectsB : Pt → Bool
  disjointBoxB : Box → Bool
  bounds : ℚ × ℚ × ℚ × ℚ

/-- Two axis-aligned boxes are disjoint exactly when they share no point,
boundaries included (shapely `disjoint`). -/
def Box.disjointB (a b : Box) : Bool :=
  decide (a.maxx < b.minx ∨ b.maxx < a.minx ∨ a.maxy < b.miny ∨ b.maxy < a.miny)

/-- The `MPolygon` instance for an axis-aligned box, with shapely's exact
semantics: `contains` is strict interior membership, `intersects` is closed
membership. -/
def boxPoly (b : Box) : MPolygon where
  containsB := fun p => decide (b.minx < p.1 ∧ p.1 < b.maxx ∧ b.miny < p.2 ∧ p.2 < b.maxy)
  intersectsB := fun p => decide (b.minx ≤ p.1 ∧ p.1 ≤ b.maxx ∧ b.miny ≤ p.2 ∧ p.2 ≤ b.maxy)
  disjointBoxB := fun c => b.disjointB c
  bounds := (b.minx, b.miny, b.maxx, b.maxy)

/-- A Python value stored in a non-geometry field of a record / a DataFrame
cell.  `nanV` is the `NaN` a pandas DataFrame puts in a cell whose record
lacks the column's key. -/
inductive CellValue where
  | noneV
  | nanV
  | intV (n : ℤ)
  | ratV (q : ℚ)
  | strV (s : String)
  | listV (xs : List ℚ)
  deriving DecidableEq, Repr

/-- The Python `type()` of a cell value. -/
inductive PyType where
  | noneT
  | floatT
  | intT
  | strT
  | listT
  deriving DecidableEq, Repr

/-- Python `type(x)` on a cell value; `NaN` is a `float`. -/
def CellValue.ptype : CellValue → PyType
  | .noneV => .noneT
  | .nanV => .floatT
  | .intV _ => .intT
  | .ratV _ => .floatT
  | .strV _ => .strT
  | .listV _ => .listT

/-- Python truthiness (`if item:`) of a cell value.  `None`, `0`, `""` and
`[]` are falsy; `NaN` is truthy. -/
def CellValue.truthy : CellValue → Bool
  | .noneV => false
  | .nanV => true
  | .intV n => decide (n ≠ 0)
  | .ratV q => decide (q ≠ 0)
  | .strV s => decide (s ≠ "")
  | .listV xs => decide (xs ≠ [])

/-- Python `str(x)` on a cell value (the exact rendering is irrelevant to the
claims; only that the result is a string). -/
def CellValue.pyStr : CellValue → String
  | .noneV => "None"
  | .nanV => "nan"
  | .intV n => toString n
  | .ratV q => toString q
  | .strV s => s
  | .listV xs => "[" ++ String.intercalate ", " (xs.map toString) ++ "]"

/-- The `geometry` field of a raw API record.  `missing`: the record dict has
no `geometry` key (a DataFrame cell becomes `NaN`); `malformed`: the key is
present but its value has no usable `coordinates` pair; `coords lon lat`: a
well-formed `{"coordinates": [lon, lat]}` value. -/
inductive GeomField where
  | missing
  | malformed
  | coords (lon lat : ℚ)
  deriving DecidableEq, Repr

/-- A raw API record: its `geometry` field plus the remaining columns. -/
structure MRecord where
  geometry : GeomField
  fields : List (String × CellValue)
  deriving DecidableEq, Repr

/-- A decoded Mapillary API response dict: the `data` list (absent, or
present with records) and the `error` key. -/
structure MapillaryData where
  dataList : Option (List MRecord)
  errorMsg : Option String
  deriving DecidableEq, Repr

/-- The record list of a response (`data.get("data")`, empty when absent). -/
def MapillaryData.records (d : MapillaryData) : List MRecord :=
  d.dataList.getD []

/-- Python truthiness of `data.get("data")`: true exactly when the `data` key
holds a non-empty list. -/
def MapillaryData.dataTruthy (d : MapillaryData) : Bool :=
  !d.records.isEmpty

/-- `get_coordinates_as_point` (line 193): `Point(inputdict["coordinates"])`.
On a `NaN` cell (missing key) Python raises `TypeError`, on a malformed value
`KeyError`/`ValueError`; both are `Except.error` here. -/
def get_coordinates_as_point : GeomField → Except String Pt
  | .missing => .error "float nan is not subscriptable"
  | .malformed => .error "coordinates"
  | .coords lon lat => .ok (lon, lat)

/-- `check_type_by_first_valid` (line 134): the Python type of the first
truthy item of the column, `None` when there is none. -/
def check_type_by_first_valid : List CellValue → Option PyType
  | [] => none
  | x :: xs => if x.truthy then some x.ptype else check_type_by_first_valid xs

/-- A DataFrame as a list of named columns (all the same length). -/
abbrev DFCols : Type := List (String × List CellValue)

/-- `selected_columns_to_str` (line 140): every column whose
`check_type_by_first_valid` equals the desired type has each of its cells
replaced by its `str(...)` form. -/
def selected_columns_to_str (df : DFCols) (desired : PyType) : DFCols :=
  df.map (fun c =>
    if check_type_by_first_valid c.2 = some desired then
      (c.1, c.2.map (fun x => CellValue.strV x.pyStr))
    else c)

/-- Column names of `pd.DataFrame.from_records`: the union of the records'
non-geometry keys, in order of first appearance. -/
def columnNames (records : List MRecord) : List String :=
  records.foldl
    (fun acc r =>
      r.fields.foldl (fun acc2 kv => if acc2.contains kv.1 then acc2 else acc2 ++ [kv.1]) acc)
    []

/-- The cells of one named column: each record's value under the key, `NaN`
when the record lacks it. -/
def columnOf (records : List MRecord) (name : String) : List CellValue :=
  records.map (fun r => (List.lookup name r.fields).getD CellValue.nanV)

/-- The non-geometry columns of `pd.DataFrame.from_records(data["data"])`. -/
def from_records_cols (records : List MRecord) : DFCols :=
  (columnNames records).map (fun n => (n, columnOf records n))

/-- Whether the record dict has a `geometry` key at all (decides whether the
DataFrame has a `geometry` column contribution from this record). -/
def MRecord.hasGeometryKey (r : MRecord) : Bool :=
  match r.geometry with
  | .missing => false
  | _ => true

/-- Whether the DataFrame built from the records has a `geometry` column:
some record must carry the key. -/
def hasGeometryColumn (records : List MRecord) : Bool :=
  records.any (fun r => r.hasGeometryKey)

/-- `as_df.geometry.apply(get_coordinates_as_point)`: converts every cell of
the geometry column, propagating the first per-cell exception. -/
def points_of_records : List MRecord → Except String (List Pt)
  | [] => .ok []
  | r :: rs =>
    match get_coordinates_as_point r.geometry with
    | .error e => .error e
    | .ok p =>
      match points_of_records rs with
      | .error e => .error e
      | .ok ps => .ok (p :: ps)

/-- One row of the resulting GeoDataFrame: the converted point geometry plus
the (possibly stringified) remaining fields. -/
structure GRow where
  point : Pt
  fields : List (String × CellValue)
  deriving DecidableEq, Repr

/-- Re-assembles rows from the geometry column and the other columns. -/
def makeRows (points : List Pt) (cols : DFCols) : List GRow :=
  points.enum.map (fun ip => ⟨ip.2, cols.map (fun c => (c.1, c.2.getD ip.1 CellValue.nanV))⟩)

/-- The body of the `try` block of `mapillary_data_to_gdf` (lines 426-448):
geometry-column check, per-cell point conversion, composite-column
stringification, then the optional `intersects` spatial filter. -/
def gdf_pipeline (records : List MRecord) (filtering_polygon : Option MPolygon) :
    Except String (List GRow) :=
  if !hasGeometryColumn records then
    .error "No geometry field found in data records"
  else
    match points_of_records records with
    | .error e => .error e
    | .ok points =>
      let cols := selected_columns_to_str (from_records_cols records) PyType.listT
      let rows := makeRows points cols
      match filtering_polygon with
      | some poly => .ok (rows.filter (fun row => poly.intersectsB row.point))
      | none => .ok rows

/-- The argument of `mapillary_data_to_gdf`, which may be a non-dict value
(rejected with `ValueError`). -/
inductive GdfInput where
  | dict (d : MapillaryData)
  | notDict

/-- Observable outcome of `mapillary_data_to_gdf`: the returned value (or the
propagated `ValueError` for non-dict input) and whether the
`Warning: Error processing data` message was printed. -/
structure GdfResult where
  result : Except String (List GRow)
  warned : Bool
  deriving DecidableEq, Repr

/-- `mapillary_data_to_gdf` (line 407): non-dict input raises; falsy `data`
yields an empty GeoDataFrame; any exception inside the `try` block is caught,
a warning is printed, and an empty GeoDataFrame is returned. -/
def mapillary_data_to_gdf (input : GdfInput) (filtering_polygon : Option MPolygon) :
    GdfResult :=
  match input with
  | .notDict => ⟨.error "Data must be a dictionary (Mapillary API response)", false⟩
  | .dict d =>
    if d.dataTruthy then
      match gdf_pipeline d.records filtering_polygon with
      | .ok rows => ⟨.ok rows, false⟩
      | .error _ => ⟨.ok [], true⟩
    else ⟨.ok [], false⟩

/-- `filter_metadata_with_polygon` (line 549): keeps the records whose point
the polygon strictly `contains`; per-record exceptions skip the record. -/
def filter_metadata_with_polygon (data : MapillaryData) (polygon : MPolygon) :
    MapillaryData :=
  if data.dataTruthy then
    { data with
      dataList := some (data.records.filter (fun item =>
        match get_coordinates_as_point item.geometry with
        | .ok p => polygon.containsB p
        | .error _ => false)) }
  else data

/-- A Python float: a finite rational, `NaN`, or a signed infinity.  (The
`isinstance` number check of the client holds for all of these.) -/
inductive PyFloat where
  | fin (q : ℚ)
  | nan
  | inf
  | ninf
  deriving DecidableEq, Repr

/-- Whether a Python float is a finite number. -/
def PyFloat.finite : PyFloat → Bool
  | .fin _ => true
  | _ => false

/-- Python `<=` on floats: any comparison with `NaN` is false, the infinities
are the extremes. -/
def pyLe : PyFloat → PyFloat → Bool
  | .nan, _ => false
  | _, .nan => false
  | .ninf, _ => true
  | _, .inf => true
  | .inf, _ => false
  | .fin _, .ninf => false
  | .fin a, .fin b => decide (a ≤ b)

/-- Python `>=` on floats. -/
def pyGe (a b : PyFloat) : Bool := pyLe b a

/-- Python `-180 <= x <= 180`. -/
def lonRangeOk (x : PyFloat) : Bool :=
  pyLe (.fin (-180)) x && pyLe x (.fin 180)

/-- Python `-90 <= x <= 90`. -/
def latRangeOk (x : PyFloat) : Bool :=
  pyLe (.fin (-90)) x && pyLe x (.fin 90)

/-- The validation prefix of `get_mapillary_images_metadata` (lines 276-293),
checked in source order; `some msg` is the `ValueError` raised, `none` means
validation passed.  (The leading `isinstance` number check is a tautology of
the typed embedding: every `PyFloat` is a Python number.) -/
def validationMsg (minLon minLat maxLon maxLat : PyFloat) (limit : ℤ) (token : String) :
    Option String :=
  if !(lonRangeOk minLon && lonRangeOk maxLon) then
    some "Longitude values must be between -180 and 180"
  else if !(latRangeOk minLat && latRangeOk maxLat) then
    some "Latitude values must be between -90 and 90"
  else if pyGe minLon maxLon || pyGe minLat maxLat then
    some "Invalid bounding box: min coordinates must be less than max coordinates"
  else if limit ≤ 0 then
    some "Limit must be a positive integer"
  else if token = "" then
    some "No valid Mapillary API token provided."
  else none

/-- What the external HTTP exchange would produce, were it issued: a
transport failure, an unparseable body, or a decoded response dict. -/
inductive NetResult where
  | transportError (msg : String)
  | invalidJson (msg : String)
  | ok (resp : MapillaryData)

/-- The error taxonomy of the client, per the categories of the spec (in
Python all but `network` are raised as `ValueError` /
`requests.exceptions.RequestException`). -/
inductive MErr where
  | invalidArgument (msg : String)
  | network (msg : String)
  | malformedResponse (msg : String)
  | apiError (msg : String)
  deriving DecidableEq, Repr

/-- Observable outcome of one client call: the returned dict or raised error,
whether the truncation warning was printed, and whether the HTTP request was
issued at all. -/
structure ClientOutcome where
  result : Except MErr MapillaryData
  warned : Bool
  issued : Bool
  deriving DecidableEq, Repr

/-- Whether a client result is a raised `InvalidArgument`. -/
def resultIsInvalidArgument : Except MErr MapillaryData → Bool
  | .error (.invalidArgument _) => true
  | _ => false

/-- `get_mapillary_images_metadata` (line 249): validate, issue the request,
map transport / JSON / API-payload failures to their error categories, print
the truncation warning when the record count equals `limit`, and return the
decoded dict. -/
def get_mapillary_images_metadata (net : NetResult)
    (minLon minLat maxLon maxLat : PyFloat) (limit : ℤ) (token : String) :
    ClientOutcome :=
  match validationMsg minLon minLat maxLon maxLat limit token with
  | some m => ⟨.error (.invalidArgument m), false, false⟩
  | none =>
    match net with
    | .transportError m =>
      ⟨.error (.network ("Failed to fetch data from Mapillary API: " ++ m)), false, true⟩
    | .invalidJson m =>
      ⟨.error (.malformedResponse ("Invalid JSON response from Mapillary API: " ++ m)),
        false, true⟩
    | .ok resp =>
      match resp.errorMsg with
      | some em => ⟨.error (.apiError ("Mapillary API error: " ++ em)), false, true⟩
      | none =>
        ⟨.ok resp,
          resp.dataTruthy && decide ((resp.records.length : ℤ) = limit),
          true⟩

/-- A tile's geographic bounds as returned by `mercantile.bounds`: the
`LngLatBbox` named tuple, whose field (and index) order is
`(west, south, east, north)`. -/
structure TileBbox where
  west : ℚ
  south : ℚ
  east : ℚ
  north : ℚ
  deriving DecidableEq, Repr

/-- `resort_bbox` (line 493): `[bbox[1], bbox[0], bbox[3], bbox[2]]` on a
`(west, south, east, north)` tuple. -/
def resort_bbox (b : TileBbox) : List ℚ :=
  [b.south, b.west, b.north, b.east]

/-- `tile_bbox_to_box` (line 112): `shapely.box` over the tile bounds, either
in `(lat, lon)` or (the default) `(lon, lat)` axis order. -/
def tile_bbox_to_box (b : TileBbox) (swap_latlon : Bool) : Box :=
  if swap_latlon then ⟨b.south, b.west, b.north, b.east⟩
  else ⟨b.west, b.south, b.east, b.north⟩

/-- `pd.concat` on a list of GeoDataFrames: raises `ValueError` on an empty
list, otherwise concatenates. -/
def pd_concat (gdfs : List (List GRow)) : Except String (List GRow) :=
  if gdfs.isEmpty then .error "No objects to concatenate"
  else .ok (gdfs.foldl (fun acc g => acc ++ g) [])

/-- The GeoDataFrame value `mapillary_data_to_gdf` hands back to the
orchestrator (for dict input its `result` is always `Except.ok`). -/
def gdfOf (r : GdfResult) : List GRow :=
  r.result.toOption.getD []

/-- Observable outcome of the orchestrator: the bbox argument lists of the
client calls it issued, in order, and the concatenated result (or the raised
error). -/
structure OrchOutcome where
  queries : List (List ℚ)
  result : Except String (List GRow)
  deriving DecidableEq, Repr

/-- One iteration of the per-tile loop of `tiled_mapillary_data_to_gdf`
(lines 467-482): build the tile box (default `(lon, lat)` order), skip
disjoint tiles, otherwise query with `resort_bbox` and append the projected,
filtered GeoDataFrame when the response has truthy `data`. -/
def orchStep (input_polygon : MPolygon) (query : List ℚ → MapillaryData)
    (acc : List (List ℚ) × List (List GRow)) (bbox : TileBbox) :
    List (List ℚ) × List (List GRow) :=
  let bbox_geom := tile_bbox_to_box bbox false
  if input_polygon.disjointBoxB bbox_geom then acc
  else
    let args := resort_bbox bbox
    let data := query args
    if data.dataTruthy then
      (acc.1 ++ [args],
        acc.2 ++ [gdfOf (mapillary_data_to_gdf (.dict data) (some input_polygon))])
    else (acc.1 ++ [args], acc.2)

/-- `tiled_mapillary_data_to_gdf` (line 456).  The mercantile tile grid is an
external collaborator, passed as `tiling` (note the code hands it the
polygon bounds re-ordered as `(minLat, minLon, maxLat, maxLon)`); the client
call with its network exchange is `query`, observed through the bbox
arguments it receives. -/
def tiled_mapillary_data_to_gdf (tiling : ℚ → ℚ → ℚ → ℚ → ℕ → List TileBbox)
    (query : List ℚ → MapillaryData) (input_polygon : MPolygon) (zoom : ℕ) :
    OrchOutcome :=
  let bds := input_polygon.bounds
  let bboxes := tiling bds.2.1 bds.1 bds.2.2.2 bds.2.2.1 zoom
  let acc := bboxes.foldl (orchStep input_polygon query) ([], [])
  ⟨acc.1, pd_concat acc.2⟩

/-- Modelled from the spec: the spec (section 4.6, step 3a) states that the
tile's rectangular polygon used for the disjointness test is built with
`(lat, lon)` axis order; this variant of the per-tile loop does exactly
that (`swap_latlon = true`), to be compared with the code's loop. -/
def orchStepLatLonSpec (input_polygon : MPolygon) (query : List ℚ → MapillaryData)
    (acc : List (List ℚ) × List (List GRow)) (bbox : TileBbox) :
    List (List ℚ) × List (List GRow) :=
  let bbox_geom := tile_bbox_to_box bbox true
  if input_polygon.disjointBoxB bbox_geom then acc
  else
    let args := resort_bbox bbox
    let data := query args
    if data.dataTruthy then
      (acc.1 ++ [args],
        acc.2 ++ [gdfOf (mapillary_data_to_gdf (.dict data) (some input_polygon))])
    else (acc.1 ++ [args], acc.2)

/-- Modelled from the spec: the orchestrator as the spec describes it in
section 4.6 step 3a, with the tile polygon built in `(lat, lon)` order. -/
def tiled_mapillary_data_to_gdf_latlonSpec (tiling : ℚ → ℚ → ℚ → ℚ → ℕ → List TileBbox)
    (query : List ℚ → MapillaryData) (input_polygon : MPolygon) (zoom : ℕ) :
    OrchOutcome :=
  let bds := input_polygon.bounds
  let bboxes := tiling bds.2.1 bds.1 bds.2.2.2 bds.2.2.1 zoom
  let acc := bboxes.foldl (orchStepLatLonSpec input_polygon query) ([], [])
  ⟨acc.1, pd_concat acc.2⟩

/-- `radius_to_degrees` (line 329): `radius / (111320 * cos(lat * pi / 180))`,
over exact reals. -/
noncomputable def radius_to_degrees (radius lat : ℝ) : ℝ :=
  radius / (111320 * Real.cos (lat * Real.pi / 180))

/-- `degrees_to_radius` (line 336): `degrees * 111320 * cos(lat * pi / 180)`,
over exact reals. -/
noncomputable def degrees_to_radius (degrees lat : ℝ) : ℝ :=
  degrees * 111320 * Real.cos (lat * Real.pi / 180)

/-! Concrete fixtures used to evaluate the embedding on explicit inputs. -/

/-- A tile whose west/south/east/north values are pairwise distinct. -/
def tileA : TileBbox := ⟨10, 20, 11, 21⟩

/-- The box polygon with the same bounds as `tileA`. -/
def polyA : MPolygon := boxPoly ⟨10, 20, 11, 21⟩

/-- A tile grid collaborator that returns exactly `tileA`. -/
def tilingA : ℚ → ℚ → ℚ → ℚ → ℕ → List TileBbox := fun _ _ _ _ _ => [tileA]

/-- A response with an empty `data` list and no error. -/
def emptyData : MapillaryData := ⟨some [], none⟩

/-- A query collaborator whose every response has zero records. -/
def emptyQuery : List ℚ → MapillaryData := fun _ => emptyData

/-- The unit tile at the origin. -/
def tileB : TileBbox := ⟨0, 0, 1, 1⟩

/-- The unit box polygon at the origin. -/
def polyB : MPolygon := boxPoly ⟨0, 0, 1, 1⟩

/-- A tile grid collaborator that returns exactly `tileB`. -/
def tilingB : ℚ → ℚ → ℚ → ℚ → ℕ → List TileBbox := fun _ _ _ _ _ => [tileB]

/-- A record whose point `(0, 0)` lies on the boundary of `polyB`. -/
def recBoundary : MRecord := ⟨.coords 0 0, [("id", .strV "a")]⟩

/-- A query collaborator that always returns the single boundary record. -/
def queryB : List ℚ → MapillaryData := fun _ => ⟨some [recBoundary], none⟩

/-- A valid record at `(1, 1)` carrying a composite-valued field. -/
def recV1 : MRecord := ⟨.coords 1 1, [("id", .strV "r1"), ("camera_parameters", .listV [1, 2])]⟩

/-- A valid record at `(2, 2)`. -/
def recV2 : MRecord := ⟨.coords 2 2, [("id", .strV "r2")]⟩

/-- A valid record at `(3, 3)`. -/
def recV3 : MRecord := ⟨.coords 3 3, [("id", .strV "r3")]⟩

/-- A record whose dict has no `geometry` key. -/
def recMissing : MRecord := ⟨.missing, [("id", .strV "r4")]⟩

/-- The projector-scenario batch of the spec: three valid records plus one
record whose `geometry` field is missing. -/
def dataFour : MapillaryData := ⟨some [recV1, recV2, recV3, recMissing], none⟩

/-- A successful response with exactly two records. -/
def dataTwo : MapillaryData := ⟨some [recV1, recV2], none⟩

/-! Small computation lemmas about the Python float comparisons. -/

/-- Python `<=` on two finite floats is the rational comparison. -/
theorem pyLe_fin_fin (a b : ℚ) : pyLe (.fin a) (.fin b) = decide (a ≤ b) := rfl

/-- Python `>=` on two finite floats is the rational comparison. -/
theorem pyGe_fin_fin (a b : ℚ) : pyGe (.fin a) (.fin b) = decide (b ≤ a) := rfl

/-! C8: the meters/degrees round trip. -/

/-- C8: for every radius `r` and latitude `lat` with `cos(lat·π/180) ≠ 0`
(latitude not at the poles), converting `r` from meters to degrees and back
is the identity: `degrees_to_radius (radius_to_degrees r lat) lat = r`.  The
float arithmetic is modelled by exact reals, so the round trip is exact, in
particular within floating-point tolerance. -/
theorem c8_radius_degrees_roundtrip (r lat : ℝ)
    (h : Real.cos (lat * Real.pi / 180) ≠ 0) :
    degrees_to_radius (radius_to_degrees r lat) lat = r := by
  unfold degrees_to_radius radius_to_degrees
  field_simp
  ring

/-- Witness for C8 at `r = 5`, `lat = 0`. -/
theorem c8_radius_degrees_roundtrip_witness :
    Real.cos ((0 : ℝ) * Real.pi / 180) ≠ 0 ∧
      degrees_to_radius (radius_to_degrees 5 0) 0 = 5 := by
  have h : Real.cos ((0 : ℝ) * Real.pi / 180) ≠ 0 := by
    rw [show (0 : ℝ) * Real.pi / 180 = 0 by ring, Real.cos_zero]
    norm_num
  exact ⟨h, c8_radius_degrees_roundtrip 5 0 h⟩

/-! C9: stringification of composite-valued columns. -/

/-- The first valid (Python-truthy) item is the first item `List.find?`
returns under the truthiness predicate. -/
theorem check_type_eq_find (l : List CellValue) :
    check_type_by_first_valid l = (l.find? CellValue.truthy).map CellValue.ptype := by
  induction l with
  | nil => rfl
  | cons x xs ih =>
    cases hx : x.truthy with
    | true => simp [check_type_by_first_valid, hx, List.find?]
    | false => simp [check_type_by_first_valid, hx, List.find?, ih]

/-- C9: during record projection a column is stringified (every cell replaced
by its string form) precisely when its first non-empty value — the first
Python-truthy cell, the notion the code's `check_type_by_first_valid` uses —
is a composite (list-typed) value; every other column is left unchanged.
(`mapillary_data_to_gdf` applies `selected_columns_to_str` with desired type
`list` to the DataFrame columns via `gdf_pipeline`.) -/
theorem c9_composite_columns_stringified (df : DFCols) :
    selected_columns_to_str df PyType.listT = df.map (fun c =>
      match c.2.find? CellValue.truthy with
      | some (.listV _) => (c.1, c.2.map (fun x => CellValue.strV x.pyStr))
      | _ => c) := by
  unfold selected_columns_to_str
  apply List.map_congr_left
  intro c _
  rw [check_type_eq_find]
  cases hf : c.2.find? CellValue.truthy with
  | none => simp
  | some v => cases v <;> simp [CellValue.ptype]

/-! C5: the client validates before any network request. -/

/-- A longitude argument that is a finite number outside `[-180, 180]`. -/
def lonOutsideFin (x : PyFloat) : Prop :=
  ∃ q : ℚ, x = .fin q ∧ ¬(-180 ≤ q ∧ q ≤ 180)

/-- A latitude argument that is a finite number outside `[-90, 90]`. -/
def latOutsideFin (x : PyFloat) : Prop :=
  ∃ q : ℚ, x = .fin q ∧ ¬(-90 ≤ q ∧ q ≤ 90)

/-- The invalidity condition of claim C5: some coordinate is not a finite
number, or a longitude is out of `[-180, 180]`, or a latitude is out of
`[-90, 90]`, or `minLon ≥ maxLon`, or `minLat ≥ maxLat`, or the limit is not
a positive integer, or the token is empty. -/
def specInvalidArgs (minLon minLat maxLon maxLat : PyFloat) (limit : ℤ) (token : String) :
    Prop :=
  (minLon.finite = false ∨ minLat.finite = false ∨ maxLon.finite = false ∨
      maxLat.finite = false) ∨
    lonOutsideFin minLon ∨ lonOutsideFin maxLon ∨
    latOutsideFin minLat ∨ latOutsideFin maxLat ∨
    (∃ qa qc : ℚ, minLon = .fin qa ∧ maxLon = .fin qc ∧ qc ≤ qa) ∨
    (∃ qb qd : ℚ, minLat = .fin qb ∧ maxLat = .fin qd ∧ qd ≤ qb) ∨
    limit ≤ 0 ∨ token = ""

/-- The validity condition of claim C5, for finite coordinates. -/
def specValidArgs (qa qb qc qd : ℚ) (limit : ℤ) (token : String) : Prop :=
  -180 ≤ qa ∧ qa ≤ 180 ∧ -180 ≤ qc ∧ qc ≤ 180 ∧
    -90 ≤ qb ∧ qb ≤ 90 ∧ -90 ≤ qd ∧ qd ≤ 90 ∧
    qa < qc ∧ qb < qd ∧ 1 ≤ limit ∧ token ≠ ""

/-- When the validation prefix raises nothing, each of its checks passed. -/
theorem validationMsg_none_facts (a b c d : PyFloat) (limit : ℤ) (token : String)
    (h : validationMsg a b c d limit token = none) :
    lonRangeOk a = true ∧ lonRangeOk c = true ∧ latRangeOk b = true ∧ latRangeOk d = true ∧
      pyGe a c = false ∧ pyGe b d = false ∧ 1 ≤ limit ∧ token ≠ "" := by
  unfold validationMsg at h
  repeat' split at h
  all_goals simp_all
  omega

/-- Finite in-range ordered coordinates, a positive limit and a non-empty
token pass every check of the validation prefix. -/
theorem validationMsg_valid_eq_none (qa qb qc qd : ℚ) (limit : ℤ) (token : String)
    (h : specValidArgs qa qb qc qd limit token) :
    validationMsg (.fin qa) (.fin qb) (.fin qc) (.fin qd) limit token = none := by
  obtain ⟨h1, h2, h3, h4, h5, h6, h7, h8, h9, h10, h11, h12⟩ := h
  have hnle : ¬limit ≤ 0 := by omega
  simp [validationMsg, lonRangeOk, latRangeOk, pyGe, pyLe_fin_fin, h1, h2, h3, h4, h5, h6,
    h7, h8, not_le.mpr h9, not_le.mpr h10, hnle, h12]

/-- C5: any violation of the claimed precondition (non-finite coordinate,
longitude outside `[-180,180]`, latitude outside `[-90,90]`,
`minLon ≥ maxLon`, `minLat ≥ maxLat`, non-positive limit, empty token) makes
the client fail with `InvalidArgument` before the HTTP request is issued;
and for valid inputs the client never raises `InvalidArgument`, whatever the
network produces. -/
theorem c5_validation_before_network :
    (∀ (net : NetResult) (a b c d : PyFloat) (limit : ℤ) (token : String),
        specInvalidArgs a b c d limit token →
          resultIsInvalidArgument
              (get_mapillary_images_metadata net a b c d limit token).result = true ∧
            (get_mapillary_images_metadata net a b c d limit token).issued = false) ∧
    (∀ (net : NetResult) (qa qb qc qd : ℚ) (limit : ℤ) (token : String),
        specValidArgs qa qb qc qd limit token →
          resultIsInvalidArgument
            (get_mapillary_images_metadata net (.fin qa) (.fin qb) (.fin qc) (.fin qd)
              limit token).result = false) := by
  constructor
  · intro net a b c d limit token hspec
    cases hv : validationMsg a b c d limit token with
    | some m => simp [get_mapillary_images_metadata, hv, resultIsInvalidArgument]
    | none =>
      exfalso
      obtain ⟨f1, f2, f3, f4, f5, f6, f7, f8⟩ := validationMsg_none_facts a b c d limit token hv
      rcases hspec with (hna | hna | hna | hna) | hout | hout | hout | hout | hord | hord |
        hlim | htok
      · cases a <;> simp [PyFloat.finite] at hna <;> exact absurd f1 (by decide)
      · cases b <;> simp [PyFloat.finite] at hna <;> exact absurd f3 (by decide)
      · cases c <;> simp [PyFloat.finite] at hna <;> exact absurd f2 (by decide)
      · cases d <;> simp [PyFloat.finite] at hna <;> exact absurd f4 (by decide)
      · obtain ⟨q, rfl, hq⟩ := hout
        simp [lonRangeOk, pyLe_fin_fin] at f1
        exact hq f1
      · obtain ⟨q, rfl, hq⟩ := hout
        simp [lonRangeOk, pyLe_fin_fin] at f2
        exact hq f2
      · obtain ⟨q, rfl, hq⟩ := hout
        simp [latRangeOk, pyLe_fin_fin] at f3
        exact hq f3
      · obtain ⟨q, rfl, hq⟩ := hout
        simp [latRangeOk, pyLe_fin_fin] at f4
        exact hq f4
      · obtain ⟨qa, qc, rfl, rfl, hq⟩ := hord
        simp [pyGe, pyLe_fin_fin] at f5
        exact absurd hq (not_le.mpr f5)
      · obtain ⟨qb, qd, rfl, rfl, hq⟩ := hord
        simp [pyGe, pyLe_fin_fin] at f6
        exact absurd hq (not_le.mpr f6)
      · omega
      · exact f8 htok
  · intro net qa qb qc qd limit token hspec
    have hv := validationMsg_valid_eq_none qa qb qc qd limit token hspec
    cases net with
    | transportError m => simp [get_mapillary_images_metadata, hv, resultIsInvalidArgument]
    | invalidJson m => simp [get_mapillary_images_metadata, hv, resultIsInvalidArgument]
    | ok resp =>
      cases he : resp.errorMsg <;>
        simp [get_mapillary_images_metadata, hv, he, resultIsInvalidArgument]

/-- Witness for C5: a `NaN` longitude is rejected without issuing the
request; the same call with finite valid coordinates raises no
`InvalidArgument`. -/
theorem c5_validation_before_network_witness :
    (specInvalidArgs .nan (.fin 0) (.fin 1) (.fin 1) 5 "t" ∧
      resultIsInvalidArgument
          (get_mapillary_images_metadata (.ok emptyData) .nan (.fin 0) (.fin 1) (.fin 1)
            5 "t").result = true ∧
      (get_mapillary_images_metadata (.ok emptyData) .nan (.fin 0) (.fin 1) (.fin 1)
          5 "t").issued = false) ∧
    (specValidArgs 0 0 1 1 5 "t" ∧
      resultIsInvalidArgument
        (get_mapillary_images_metadata (.ok emptyData) (.fin 0) (.fin 0) (.fin 1) (.fin 1)
          5 "t").result = false) := by
  have hbad : specInvalidArgs .nan (.fin 0) (.fin 1) (.fin 1) 5 "t" :=
    Or.inl (Or.inl rfl)
  have hgood : specValidArgs 0 0 1 1 5 "t" := by
    refine ⟨by norm_num, by norm_num, by norm_num, by norm_num, by norm_num, by norm_num,
      by norm_num, by norm_num, by norm_num, by norm_num, by norm_num, by decide⟩
  have h1 := c5_validation_before_network.1 (.ok emptyData) .nan (.fin 0) (.fin 1) (.fin 1)
    5 "t" hbad
  have h2 := c5_validation_before_network.2 (.ok emptyData) 0 0 1 1 5 "t" hgood
  exact ⟨⟨hbad, h1.1, h1.2⟩, ⟨hgood, h2⟩⟩

/-! C6: the truncation warning. -/

/-- C6: for every successful query (validation passed, transport and JSON
succeeded, no API error payload), the truncation warning is printed exactly
when the number of returned records equals the requested limit, and in every
case the decoded response dict itself is returned. -/
theorem c6_truncation_warning (resp : MapillaryData) (a b c d : PyFloat) (limit : ℤ)
    (token : String) (hv : validationMsg a b c d limit token = none)
    (he : resp.errorMsg = none) :
    ((get_mapillary_images_metadata (.ok resp) a b c d limit token).warned = true ↔
        (resp.records.length : ℤ) = limit) ∧
      (get_mapillary_images_metadata (.ok resp) a b c d limit token).result = .ok resp := by
  have hlim : 1 ≤ limit := (validationMsg_none_facts a b c d limit token hv).2.2.2.2.2.2.1
  refine ⟨?_, by simp [get_mapillary_images_metadata, hv, he]⟩
  simp only [get_mapillary_images_metadata, hv, he, MapillaryData.dataTruthy,
    Bool.and_eq_true, decide_eq_true_eq, Bool.not_eq_eq_eq_not, Bool.not_true]
  constructor
  · exact fun h => h.2
  · intro h
    refine ⟨?_, h⟩
    cases hrec : resp.records with
    | nil => rw [hrec] at h; simp at h; omega
    | cons x xs => simp

/-- Witness for C6: two records returned under limit two trigger the warning
and the response is still returned. -/
theorem c6_truncation_warning_witness :
    validationMsg (.fin 0) (.fin 0) (.fin 1) (.fin 1) 2 "t" = none ∧
      dataTwo.errorMsg = none ∧
      (get_mapillary_images_metadata (.ok dataTwo) (.fin 0) (.fin 0) (.fin 1) (.fin 1)
          2 "t").warned = true ∧
      (get_mapillary_images_metadata (.ok dataTwo) (.fin 0) (.fin 0) (.fin 1) (.fin 1)
          2 "t").result = .ok dataTwo := by
  have h := c6_truncation_warning dataTwo (.fin 0) (.fin 0) (.fin 1) (.fin 1) 2 "t"
    (by decide) rfl
  exact ⟨by decide, rfl, h.1.mpr (by decide), h.2⟩

/-! C10, C7, C1: the record projector and the spatial filters. -/

/-- If the per-cell geometry conversion of the whole column succeeds, every
record's geometry converts. -/
theorem points_of_records_ok_forall {l : List MRecord} {ps : List Pt}
    (h : points_of_records l = .ok ps) :
    ∀ r ∈ l, (get_coordinates_as_point r.geometry).isOk = true := by
  induction l generalizing ps with
  | nil => intro r hr; cases hr
  | cons x xs ih =>
    intro r hr
    unfold points_of_records at h
    cases hx : get_coordinates_as_point x.geometry with
    | error e => rw [hx] at h; cases h
    | ok p =>
      rw [hx] at h
      cases hxs : points_of_records xs with
      | error e => rw [hxs] at h; cases h
      | ok ps2 =>
        rw [hxs] at h
        cases hr with
        | head => rw [hx]; rfl
        | tail _ hmem => exact ih hxs r hmem

/-- C10: the record projector never propagates an exception on a dictionary
input: a non-dict input raises `ValueError` (`InvalidArgument`); a dict whose
`data` entry is missing, empty or falsy yields an empty collection with no
warning; and when processing of a non-empty `data` entry fails anywhere
inside the `try` block (missing geometry column, unusable geometry value in
any record), the projector logs a warning and returns an empty collection
instead of raising. -/
theorem c10_projector_never_raises (d : MapillaryData) (fp : Option MPolygon) :
    (mapillary_data_to_gdf .notDict fp).result =
        .error "Data must be a dictionary (Mapillary API response)" ∧
      ((mapillary_data_to_gdf (.dict d) fp).result).isOk = true ∧
      (d.dataTruthy = false → mapillary_data_to_gdf (.dict d) fp = ⟨.ok [], false⟩) ∧
      (d.dataTruthy = true → ∀ e, gdf_pipeline d.records fp = .error e →
        mapillary_data_to_gdf (.dict d) fp = ⟨.ok [], true⟩) := by
  refine ⟨rfl, ?_, ?_, ?_⟩
  · unfold mapillary_data_to_gdf
    cases ht : d.dataTruthy with
    | false => simp [ht, Except.isOk, Except.toBool]
    | true =>
      cases hp : gdf_pipeline d.records fp <;> simp [ht, hp, Except.isOk, Except.toBool]
  · intro ht; simp [mapillary_data_to_gdf, ht]
  · intro ht e he; simp [mapillary_data_to_gdf, ht, he]

/-- Witness for C10: the empty response yields an empty collection without
warning; the four-record batch with one bad geometry yields an empty
collection with a warning, no exception. -/
theorem c10_projector_never_raises_witness :
    mapillary_data_to_gdf (.dict emptyData) none = ⟨.ok [], false⟩ ∧
      mapillary_data_to_gdf (.dict dataFour) none = ⟨.ok [], true⟩ := by
  refine ⟨(c10_projector_never_raises emptyData none).2.2.1 (by decide),
    (c10_projector_never_raises dataFour none).2.2.2 (by decide)
      "float nan is not subscriptable" (by decide)⟩

/-- Counterexample to C7 as stated: on the spec's own scenario — three valid
records plus one record with a missing geometry field — the projector
returns 0 records, not 3 (the whole batch is dropped). -/
theorem c7_counterexample :
    (mapillary_data_to_gdf (.dict dataFour) none).result = .ok [] ∧
      ((mapillary_data_to_gdf (.dict dataFour) none).result.toOption.getD []).length = 0 ∧
      (mapillary_data_to_gdf (.dict dataFour) none).warned = true := by
  refine ⟨by decide, by decide, by decide⟩

/-- C7 as amended: malformed geometry is handled per batch, not per record —
whenever any record of a non-empty batch has an absent or malformed geometry
(its per-record conversion raises), the projector catches the exception at
batch level, logs one warning, raises nothing, and returns an empty
collection (so the valid records of the batch are dropped too). -/
theorem c7_malformed_record_aborts_batch (d : MapillaryData) (fp : Option MPolygon)
    (h : ∃ r ∈ d.records, (get_coordinates_as_point r.geometry).isOk = false) :
    mapillary_data_to_gdf (.dict d) fp = ⟨.ok [], true⟩ := by
  obtain ⟨r, hr, hbad⟩ := h
  have ht : d.dataTruthy = true := by
    unfold MapillaryData.dataTruthy
    cases hrec : d.records with
    | nil => rw [hrec] at hr; cases hr
    | cons x xs => simp
  cases hp : gdf_pipeline d.records fp with
  | error e => simp [mapillary_data_to_gdf, ht, hp]
  | ok rows =>
    exfalso
    unfold gdf_pipeline at hp
    cases hg : hasGeometryColumn d.records with
    | false => rw [hg] at hp; cases hp
    | true =>
      rw [hg] at hp
      cases hpts : points_of_records d.records with
      | error e => simp [hpts] at hp
      | ok pts =>
        have := points_of_records_ok_forall hpts r hr
        rw [hbad] at this
        cases this

/-- Witness for C7 as amended, at the four-record batch. -/
theorem c7_malformed_record_aborts_batch_witness :
    mapillary_data_to_gdf (.dict dataFour) none = ⟨.ok [], true⟩ :=
  c7_malformed_record_aborts_batch dataFour none ⟨recMissing, by decide, rfl⟩

/-- The spatial filter inside the projector commutes with the rest of the
pipeline: running with a filtering polygon equals running without one and
filtering the rows by `intersects`. -/
theorem gdf_pipeline_some_eq (records : List MRecord) (poly : MPolygon) :
    gdf_pipeline records (some poly) =
      Except.map (fun rows => rows.filter (fun row => poly.intersectsB row.point))
        (gdf_pipeline records none) := by
  unfold gdf_pipeline
  cases hg : hasGeometryColumn records with
  | false => simp [Except.map]
  | true =>
    cases hpts : points_of_records records <;> simp [hpts, Except.map]

/-- Counterexample to C1 as stated: the orchestrator's per-tile filtering
(through `mapillary_data_to_gdf` with the region polygon) retains a record
whose point `(0, 0)` lies on the boundary of the region polygon, although
the polygon does not strictly contain that point — so the orchestrator's
filter is `intersects`, not the claimed boundary-excluding `contains`. -/
theorem c1_counterexample :
    (tiled_mapillary_data_to_gdf tilingB queryB polyB 18).result =
        .ok [⟨(0, 0), [("id", CellValue.strV "a")]⟩] ∧
      polyB.containsB (0, 0) = false ∧
      polyB.intersectsB (0, 0) = true := by
  refine ⟨by decide, by decide, by decide⟩

/-- C1 as amended: `filter_metadata_with_polygon` retains exactly the input
records whose well-formed point the polygon strictly contains (boundary
excluded), for every input and polygon; but the filtering the orchestrator
applies to each tile's records — `mapillary_data_to_gdf` with the region as
`filtering_polygon` — uses `intersects` semantics (boundary included)
instead. -/
theorem c1_filter_semantics :
    (∀ (data : MapillaryData) (polygon : MPolygon) (r : MRecord),
        r ∈ (filter_metadata_with_polygon data polygon).records ↔
          r ∈ data.records ∧ ∃ p : Pt,
            get_coordinates_as_point r.geometry = .ok p ∧ polygon.containsB p = true) ∧
    (∀ (d : MapillaryData) (poly : MPolygon),
        (mapillary_data_to_gdf (.dict d) (some poly)).result =
          Except.map (fun rows => rows.filter (fun row => poly.intersectsB row.point))
            ((mapillary_data_to_gdf (.dict d) none).result)) := by
  constructor
  · intro data polygon r
    unfold filter_metadata_with_polygon
    cases ht : data.dataTruthy with
    | false =>
      have hrec : data.records = [] := by
        unfold MapillaryData.dataTruthy at ht
        simpa using ht
      simp [hrec]
    | true =>
      simp only [if_true, MapillaryData.records, Option.getD_some, List.mem_filter]
      constructor
      · rintro ⟨hmem, hpred⟩
        refine ⟨hmem, ?_⟩
        cases hgeo : get_coordinates_as_point r.geometry with
        | error e => rw [hgeo] at hpred; cases hpred
        | ok p => rw [hgeo] at hpred; exact ⟨p, rfl, hpred⟩
      · rintro ⟨hmem, p, hgeo, hcon⟩
        exact ⟨hmem, by rw [hgeo]; exact hcon⟩
  · intro d poly
    cases ht : d.dataTruthy with
    | false => simp [mapillary_data_to_gdf, ht, Except.map]
    | true =>
      simp only [mapillary_data_to_gdf, ht, if_true]
      rw [gdf_pipeline_some_eq]
      cases hp : gdf_pipeline d.records none <;> simp [hp, Except.map]

/-! C2, C3, C4: the per-tile loop of the orchestrator. -/

/-- The bbox argument lists the loop sends to the client: one `resort_bbox`
per tile whose `(lon, lat)`-ordered box is not disjoint from the region. -/
def queriesSpec (poly : MPolygon) (l : List TileBbox) : List (List ℚ) :=
  (l.filter (fun bb => !poly.disjointBoxB (tile_bbox_to_box bb false))).map resort_bbox

/-- The per-tile GeoDataFrames the loop appends: one per queried tile whose
response has truthy `data`. -/
def gdfsSpec (poly : MPolygon) (query : List ℚ → MapillaryData) (l : List TileBbox) :
    List (List GRow) :=
  (l.filter (fun bb =>
      !poly.disjointBoxB (tile_bbox_to_box bb false) &&
        (query (resort_bbox bb)).dataTruthy)).map
    (fun bb => gdfOf (mapillary_data_to_gdf (.dict (query (resort_bbox bb))) (some poly)))

/-- Unrolling the fold of the per-tile loop. -/
theorem orch_foldl_eq (poly : MPolygon) (query : List ℚ → MapillaryData)
    (l : List TileBbox) (qs : List (List ℚ)) (gs : List (List GRow)) :
    l.foldl (orchStep poly query) (qs, gs) =
      (qs ++ queriesSpec poly l, gs ++ gdfsSpec poly query l) := by
  induction l generalizing qs gs with
  | nil => simp [queriesSpec, gdfsSpec]
  | cons bb t ih =>
    simp only [List.foldl_cons]
    cases hd : poly.disjointBoxB (tile_bbox_to_box bb false) with
    | true =>
      rw [show orchStep poly query (qs, gs) bb = (qs, gs) from by simp [orchStep, hd]]
      rw [ih]
      simp [queriesSpec, gdfsSpec, hd]
    | false =>
      cases htr : (query (resort_bbox bb)).dataTruthy with
      | true =>
        rw [show orchStep poly query (qs, gs) bb =
            (qs ++ [resort_bbox bb],
              gs ++ [gdfOf (mapillary_data_to_gdf (.dict (query (resort_bbox bb)))
                (some poly))]) from by simp [orchStep, hd, htr]]
        rw [ih]
        simp [queriesSpec, gdfsSpec, hd, htr]
      | false =>
        rw [show orchStep poly query (qs, gs) bb = (qs ++ [resort_bbox bb], gs) from by
          simp [orchStep, hd, htr]]
        rw [ih]
        simp [queriesSpec, gdfsSpec, hd, htr]

/-- C2 evaluated at a failing input: a region covered by one intersecting
tile whose query returns zero records — no per-tile collection is ever
appended, and the orchestrator does not return an empty collection but
raises `pd.concat`'s `ValueError: No objects to concatenate`. -/
theorem c2_failing_eval :
    (tiled_mapillary_data_to_gdf tilingA emptyQuery polyA 18).result =
      .error "No objects to concatenate" := by
  decide

/-- C3 evaluated at a failing input: for the tile with bounds
`(west, south, east, north) = (10, 20, 11, 21)` the client receives the
bbox arguments `[20, 10, 21, 11]` — `(south, west, north, east)`, latitudes
in the longitude slots — instead of the claimed
`(minLon, minLat, maxLon, maxLat) = (10, 20, 11, 21)`. -/
theorem c3_failing_eval :
    (tiled_mapillary_data_to_gdf tilingA emptyQuery polyA 18).queries =
        [[20, 10, 21, 11]] ∧
      [(20 : ℚ), 10, 21, 11] ≠ [tileA.west, tileA.south, tileA.east, tileA.north] := by
  refine ⟨by decide, by decide⟩

/-- Counterexample to C4 as stated: the tile box the loop uses is built with
`swap_latlon = false`, i.e. `(lon, lat)` vertex order, not the claimed
`(lat, lon)` order; at a tile identical to the region box the code issues
one query, while the spec-described `(lat, lon)` construction would find the
boxes disjoint and issue none. -/
theorem c4_counterexample :
    tile_bbox_to_box tileA false = ⟨10, 20, 11, 21⟩ ∧
      tile_bbox_to_box tileA true = ⟨20, 10, 21, 11⟩ ∧
      tile_bbox_to_box tileA false ≠ tile_bbox_to_box tileA true ∧
      (tiled_mapillary_data_to_gdf tilingA emptyQuery polyA 18).queries.length = 1 ∧
      (tiled_mapillary_data_to_gdf_latlonSpec tilingA emptyQuery polyA 18).queries.length
        = 0 := by
  refine ⟨by decide, by decide, by decide, by decide, by decide⟩

/-- C4 as amended: in the orchestrator's per-tile loop the tile rectangle
used for the disjointness test is built with `(lon, lat)` axis order
(`swap_latlon = false`, minx the tile's west longitude), and the tiles
queried are exactly those whose `(lon, lat)` box is not disjoint from the
region polygon. -/
theorem c4_tile_box_lonlat_order :
    (∀ bb : TileBbox, tile_bbox_to_box bb false = ⟨bb.west, bb.south, bb.east, bb.north⟩) ∧
    (∀ (tiling : ℚ → ℚ → ℚ → ℚ → ℕ → List TileBbox) (query : List ℚ → MapillaryData)
        (poly : MPolygon) (zoom : ℕ),
        (tiled_mapillary_data_to_gdf tiling query poly zoom).queries =
          queriesSpec poly
            (tiling poly.bounds.2.1 poly.bounds.1 poly.bounds.2.2.2 poly.bounds.2.2.1
              zoom)) := by
  refine ⟨fun bb => rfl, fun tiling query poly zoom => ?_⟩
  show (List.foldl (orchStep poly query) ([], [])
      (tiling poly.bounds.2.1 poly.bounds.1 poly.bounds.2.2.2 poly.bounds.2.2.1 zoom)).1 = _
  rw [orch_foldl_eq]
  simp

end MapillaryApi
